import Mathlib

/-
Verification of the gpcache core (Session Client, Perturbation Cache,
Satellite Catalog) against its natural-language specification.

The Rust sources are embedded shallowly:
* machine integers become `Nat` (NORAD ids fit comfortably; `usize` parsing
  checks the 2^64 bound explicitly),
* `Instant` becomes a `Nat` count of seconds; `t.elapsed()` at time `now`
  is `now - t` (monotone clock, `t ≤ now` in every reachable state),
* fallible remote calls (`reqwest` sends, JSON decoding, the fuzzy scorer
  from the external `sublime_fuzzy` crate) are inputs of the embedded
  functions: each operation takes the outcome of the remote interaction it
  would perform as an explicit `Except`/`Option` argument and additionally
  returns how many remote interactions it performed,
* the `HashMap` stores become association lists keyed by id (insertion
  replaces the entry with the same key), and iteration order is an explicit
  list order; theorems that depend on the map invariant carry the
  "keys are unique" hypothesis explicitly.
-/

namespace Gpcache

open List

/-! ## Session Client — src/api.rs -/

/-- Errors of the transport layer (`reqwest::Error`): either a transport
failure or an HTTP error status surfaced by `error_for_status`. -/
inductive ReqError where
  | transport : String → ReqError
  | status : Nat → ReqError
deriving DecidableEq

/-- Embeds `Response::error_for_status`: statuses 400..=599 become errors, any
other status passes the response through. -/
def errorForStatus (s : Nat) : Except ReqError Nat :=
  if 400 ≤ s ∧ s ≤ 599 then Except.error (ReqError.status s) else Except.ok s

/-- The session-client state (src/api.rs `SpaceTrackClient`): credentials and
the cookie-carrying connection live in the transport layer; the only piece of
state the embedded operations read is the `last_auth` instant, set once by
`from_env` at construction. -/
structure SpaceTrackClient where
  lastAuth : Nat

/-- src/api.rs `SpaceTrackClient::reauth`. `handshake` is the outcome of the
login POST (after `error_for_status`). Returns the call result, the client
state afterwards, and the number of login handshakes actually sent (0 or 1).
`reauth` takes `&self` in the source, so the returned state is the input
state in every branch: in particular `last_auth` is never written. -/
def SpaceTrackClient.reauth (st : SpaceTrackClient) (now : Nat) (force : Bool)
    (handshake : Except ReqError Unit) :
    Except ReqError Unit × SpaceTrackClient × Nat :=
  if 300 < now - st.lastAuth ∧ force = false then
    -- `if self.last_auth.elapsed() > Duration::from_secs(300) && !force { return Ok(()) }`
    (Except.ok (), st, 0)
  else
    match handshake with
    | Except.error e => (Except.error e, st, 1)
    | Except.ok _ => (Except.ok (), st, 1)

/-- src/api.rs `SpaceTrackClient::query`. `resp1` is the outcome of the first
send (its status, or a transport error), `handshake` the outcome of the login
POST should `reauth` send one, `resp2` the outcome of the retry send. Returns
the call result, the number of login handshakes sent, and the number of
retries sent after the first request (0 or 1). -/
def SpaceTrackClient.query (st : SpaceTrackClient) (now : Nat)
    (resp1 : Except ReqError Nat) (handshake : Except ReqError Unit)
    (resp2 : Except ReqError Nat) :
    Except ReqError Nat × Nat × Nat :=
  match resp1 with
  | Except.error e => (Except.error e, 0, 0)
  | Except.ok s1 =>
    if s1 ≠ 401 then
      (errorForStatus s1, 0, 0)
    else
      match st.reauth now false handshake with
      | (Except.error e, _, h) => (Except.error e, h, 0)
      | (Except.ok _, _, h) =>
        match resp2 with
        | Except.error e => (Except.error e, h, 1)
        | Except.ok s2 => (errorForStatus s2, h, 1)

/-! ## Perturbation Cache — src/perturbation.rs -/

/-- Embeds `const MAX_AGE: Duration = Duration::from_secs(60 * 60 * 4)`, in seconds. -/
def MAX_AGE : Nat := 60 * 60 * 4

/-- The cache store `HashMap<NoradId, (Instant, String)>` as an association
list: entries are `(id, fetchTime, payload)`. -/
def CacheStore := List (Nat × Nat × String)

/-- Embeds `HashMap::get(&id).cloned()` on the association-list model. -/
def cacheGet : List (Nat × Nat × String) → Nat → Option (Nat × String)
  | [], _ => none
  | (k, v) :: t, id => if k = id then some v else cacheGet t id

/-- Embeds `HashMap::insert(id, v)` on the association-list model: replaces the
entry with the same key, otherwise appends. -/
def cacheInsert : List (Nat × Nat × String) → Nat → Nat × String → List (Nat × Nat × String)
  | [], id, v => [(id, v)]
  | (k, w) :: t, id, v => if k = id then (id, v) :: t else (k, w) :: cacheInsert t id v

/-- The `_ =>` arm of the match in `get_or_fetch`: perform the remote fetch
(outcome `fetchResult`), store the payload on success, propagate the error
(with `?`, before any insertion) on failure. -/
def fetchAndStore (entries : List (Nat × Nat × String)) (now : Nat) (id : Nat)
    (fetchResult : Except ReqError String) :
    Except ReqError String × List (Nat × Nat × String) × Nat :=
  match fetchResult with
  | Except.error e => (Except.error e, entries, 1)
  | Except.ok data => (Except.ok data, cacheInsert entries id (now, data), 1)

/-- src/perturbation.rs `PerturbationCache::get_or_fetch`. `now` is the
current instant, `fetchResult` the outcome of the remote fetch should one be
issued. Returns the call result, the cache store afterwards, and the number
of remote fetches issued (0 or 1). -/
def get_or_fetch (entries : List (Nat × Nat × String)) (now : Nat) (id : Nat)
    (fetchResult : Except ReqError String) :
    Except ReqError String × List (Nat × Nat × String) × Nat :=
  match cacheGet entries id with
  | some (fetchTime, data) =>
    if now - fetchTime < MAX_AGE then (Except.ok data, entries, 0)
    else fetchAndStore entries now id fetchResult
  | none => fetchAndStore entries now id fetchResult

/-! ## Satellite Catalog — src/satellites.rs -/

/-- src/satellites.rs `ObjectType`. -/
inductive ObjectType where
  | RocketBody
  | Payload
  | Debris
  | Unknown
deriving DecidableEq

/-- src/satellites.rs `OrbitData` (four `f64` fields, never inspected by the
operations under verification). -/
structure OrbitData where
  period : Float
  inclination : Float
  apogee : Float
  perigee : Float

/-- src/satellites.rs `Satellite`. -/
structure Satellite where
  id : Nat
  objectType : ObjectType
  objectName : String
  launch : String
  decay : Option String
  orbit : Option OrbitData

/-- src/satellites.rs `SearchResult`. -/
structure SearchResult where
  score : Int
  satellite : Satellite

/-- One step of `satellites.into_iter().map(|s| (s.id, s)).collect::<HashMap<_, _>>()`:
inserting into the id-keyed map, a later satellite with the same id replaces
an earlier one. -/
def snapInsert : List Satellite → Satellite → List Satellite
  | [], s => [s]
  | t :: ts, s => if t.id = s.id then s :: ts else t :: snapInsert ts s

/-- The id-keyed map built by `update`'s `collect`. -/
def buildSnapshot (sats : List Satellite) : List Satellite :=
  sats.foldl snapInsert []

/-- src/satellites.rs `SatelliteDatabase::update`. `fetchResult` is the
outcome of `self.fetch()` (the remote call plus JSON decoding, so a transport
error, an HTTP error status, or a decode failure all land in the `error`
case). On error the `?` operator returns before the store is locked, so the
published snapshot `old` is untouched. -/
def update (old : List Satellite) (fetchResult : Except ReqError (List Satellite)) :
    Except ReqError Unit × List Satellite :=
  match fetchResult with
  | Except.error e => (Except.error e, old)
  | Except.ok sats => (Except.ok (), buildSnapshot sats)

/-- Rust `str::parse::<usize>` (as used on the query): an optional leading
`'+'`, then one or more ASCII digits, no other characters, and the value must
fit the 64-bit `usize` of the target, otherwise `Err`. -/
def parseUsize (s : String) : Option Nat :=
  let cs := s.toList
  let ds := match cs with
    | '+' :: rest => rest
    | _ => cs
  if ds ≠ [] ∧ ds.all (fun c => c.isDigit) then
    let v := ds.foldl (fun acc c => acc * 10 + (c.toNat - 48)) 0
    if v < 2 ^ 64 then some v else none
  else none

/-- Comparator of `matches.sort_unstable_by_key(|r| Reverse(r.satellite.id))`:
ascending in `Reverse(id)`, that is descending in `id`. The Rust sort is
unstable, but on the catalog's unique ids the sorted permutation is unique,
so `mergeSort` embeds it faithfully (the theorems that depend on the order
carry the uniqueness hypothesis). -/
def idDescB (a b : SearchResult) : Bool :=
  decide (b.satellite.id ≤ a.satellite.id)

/-- Comparator of `matches.sort_by_key(|r| Reverse(r.score))`: ascending in
`Reverse(score)`, that is descending in `score`. This Rust sort is stable,
exactly like `mergeSort`. -/
def scoreDescB (a b : SearchResult) : Bool :=
  decide (b.score ≤ a.score)

/-- The match-collection stage of `search`'s fuzzy path: keep the entries
whose classification is in `allowed`, score them with the fuzzy scorer
(`sublime_fuzzy::best_match`, an external crate, hence a parameter `scorer`;
`none` models "no match"), and reject negative scores. -/
def fuzzyMatches (scorer : String → String → Option Int) (query : String)
    (allowed : List ObjectType) (entries : List Satellite) : List SearchResult :=
  (entries.filter (fun s => allowed.contains s.objectType)).filterMap (fun s =>
    match scorer query s.objectName with
    | some score => if score < 0 then none else some { score := score, satellite := s }
    | none => none)

/-- The two-pass sort of `search`: unstable by id descending, then stably by
score descending. -/
def sortMatches (ms : List SearchResult) : List SearchResult :=
  (ms.mergeSort idDescB).mergeSort scoreDescB

/-- src/satellites.rs `SatelliteDatabase::search`. `entries` is the catalog
snapshot in iteration order; `scorer` is the external fuzzy scorer. -/
def search (scorer : String → String → Option Int) (query : String)
    (allowed : List ObjectType) (entries : List Satellite) : List Satellite :=
  -- `if query.len() <= 3 { return Vec::new(); }` — byte length!
  if query.utf8ByteSize ≤ 3 then
    []
  else
    -- `query.parse::<usize>().ok().map(|id| entries.get(&id)).flatten().cloned()`
    match (parseUsize query).bind (fun id => entries.find? (fun s => s.id == id)) with
    | some satellite => [satellite]
    | none =>
      ((sortMatches (fuzzyMatches scorer query allowed entries)).take 20).map
        (fun r => r.satellite)

/-- The ranking the fuzzy path is specified to produce: score descending
first, ties broken by identifier descending. `lexAfter a b` says `a` may
legitimately precede `b` in the output. -/
def lexAfter (a b : SearchResult) : Prop :=
  b.score ≤ a.score ∧ (a.score = b.score → b.satellite.id < a.satellite.id)

/-- src/satellites.rs `impl Deserialize for ObjectType`: the four known wire
strings map to their constructors, any other string maps to `Unknown` while
emitting a diagnostic on stderr (the `Bool` component records whether the
diagnostic was emitted). The deserializer never fails on the type string. -/
def objectTypeDeserialize (s : String) : Except String (ObjectType × Bool) :=
  if s = "ROCKET BODY" then Except.ok (ObjectType.RocketBody, false)
  else if s = "PAYLOAD" then Except.ok (ObjectType.Payload, false)
  else if s = "DEBRIS" then Except.ok (ObjectType.Debris, false)
  else if s = "UNKNOWN" then Except.ok (ObjectType.Unknown, false)
  else Except.ok (ObjectType.Unknown, true)

/-- A catalog record on the wire with every field except `OBJECT_TYPE`
already decoded (the claim under verification concerns only the object-type
field of the serde-derived `Satellite` deserializer). -/
structure SatelliteWire where
  id : Nat
  objectTypeStr : String
  objectName : String
  launch : String
  decay : Option String
  orbit : Option OrbitData

/-- Ingestion of one catalog record: decoding the `OBJECT_TYPE` string is the
only step that could be affected by an unrecognized classification; its
result is threaded into the `Satellite` value exactly as serde does. -/
def satelliteDeserialize (w : SatelliteWire) : Except String Satellite :=
  match objectTypeDeserialize w.objectTypeStr with
  | Except.error e => Except.error e
  | Except.ok (t, _) =>
    Except.ok { id := w.id, objectType := t, objectName := w.objectName,
                launch := w.launch, decay := w.decay, orbit := w.orbit }

/-! ## Sample data for witnesses and counterexamples -/

/-- The ISS catalog entry used throughout the spec's examples. -/
def issSat : Satellite :=
  { id := 25544, objectType := ObjectType.Payload, objectName := "ISS (ZARYA)",
    launch := "1998-11-20", decay := none, orbit := none }

/-- A catalog entry whose id has only three digits. -/
def sat123 : Satellite :=
  { id := 123, objectType := ObjectType.Payload, objectName := "EXPLORER 7",
    launch := "1959-10-13", decay := none, orbit := none }

/-- A wire record carrying an object-type string unknown to the parser. -/
def futureWire : SatelliteWire :=
  { id := 99999, objectTypeStr := "UNKNOWN_FUTURE_TYPE", objectName := "MYSTERY OBJ",
    launch := "2030-01-01", decay := none, orbit := none }

/-! ## Theorems -/

/-- Claim C1 — the code diverges from it. With the client constructed at
instant 0 and the first send of `query` coming back 401 at instant 301
(uptime over 300 s, the common case for an expired session), `reauth(false)`
takes its early-return branch — `last_auth.elapsed() > 300 && !force` — and
sends no login handshake at all, after which `query` retries once,
unauthenticated, and surfaces the second 401 as an error. The claim (and the
spec) require exactly one re-authentication handshake before the retry; the
skip condition is inverted relative to the code's own log message
("Skipping reauth, too frequent ..."). The middle component 0 below is the
number of handshakes sent; the last component 1 is the number of retries. -/
theorem claim_c1_reauth_skipped :
    SpaceTrackClient.query ⟨0⟩ 301 (Except.ok 401) (Except.ok ()) (Except.ok 401) =
      (Except.error (ReqError.status 401), 0, 1) := rfl

/-- Claim C2: if a stored cache entry for `id` has age strictly below the
4-hour maximum age, `get_or_fetch` returns that entry's payload unchanged and
performs zero remote calls (the cache store is also left unchanged),
whatever the remote fetch would have produced. -/
theorem claim_c2_cache_hit (entries : List (Nat × Nat × String)) (now id fetchTime : Nat)
    (data : String) (fetchResult : Except ReqError String)
    (hget : cacheGet entries id = some (fetchTime, data))
    (hage : now - fetchTime < MAX_AGE) :
    get_or_fetch entries now id fetchResult = (Except.ok data, entries, 0) := by
  unfold get_or_fetch
  rw [hget]
  exact if_pos hage

theorem claim_c2_witness :
    cacheGet [(7, 100, "payload")] 7 = some (100, "payload") ∧
    200 - 100 < MAX_AGE ∧
    get_or_fetch [(7, 100, "payload")] 200 7 (Except.error (ReqError.transport "down")) =
      (Except.ok "payload", [(7, 100, "payload")], 0) :=
  ⟨rfl, by decide, claim_c2_cache_hit _ _ _ _ _ _ rfl (by decide)⟩

/-- Claim C3: whenever `get_or_fetch` actually issues the remote fetch (no
stored entry is fresh) and that fetch fails, the call returns the error and
the cache store is exactly the one before the call — no entry is created,
overwritten or evicted — so a stale entry, if any, stays available for a
later retry. -/
theorem claim_c3_failed_fetch (entries : List (Nat × Nat × String)) (now id : Nat)
    (e : ReqError)
    (hstale : ∀ fetchTime data, cacheGet entries id = some (fetchTime, data) →
      MAX_AGE ≤ now - fetchTime) :
    get_or_fetch entries now id (Except.error e) = (Except.error e, entries, 1) := by
  unfold get_or_fetch
  cases h : cacheGet entries id with
  | none => rfl
  | some v =>
    obtain ⟨t, d⟩ := v
    have hst := hstale t d h
    show (if now - t < MAX_AGE then (Except.ok d, entries, 0)
          else fetchAndStore entries now id (Except.error e)) = (Except.error e, entries, 1)
    rw [if_neg (by omega)]
    rfl

theorem claim_c3_witness :
    (∀ fetchTime data, cacheGet [(7, 100, "old")] 7 = some (fetchTime, data) →
      MAX_AGE ≤ 99999 - fetchTime) ∧
    get_or_fetch [(7, 100, "old")] 99999 7 (Except.error (ReqError.status 500)) =
      (Except.error (ReqError.status 500), [(7, 100, "old")], 1) :=
  ⟨by intro t d h; simp [cacheGet] at h; simp [MAX_AGE]; omega,
   claim_c3_failed_fetch _ _ _ _
     (by intro t d h; simp [cacheGet] at h; simp [MAX_AGE]; omega)⟩

/-- Claim C4 as stated is false: the query-length guard runs before the
exact-ID fast path, so the three-byte query "123" returns the empty list
even though it parses as a numeric identifier that is present in the
catalog. -/
theorem claim_c4_counterexample :
    parseUsize "123" = some 123 ∧
    [sat123].find? (fun s => s.id == 123) = some sat123 ∧
    search (fun _ _ => none) "123" [ObjectType.Payload] [sat123] = [] :=
  ⟨by decide, rfl, rfl⟩

/-- Claim C4 amended: for every query string of UTF-8 byte length at least 4
that parses as a numeric identifier present in the catalog snapshot, `search`
returns exactly that one object as its sole result — for every
allowed-classification list, including ones that exclude the object's
classification (the filter is bypassed on the exact-ID fast path). -/
theorem claim_c4_exact_id_fast_path (scorer : String → String → Option Int)
    (query : String) (allowed : List ObjectType) (entries : List Satellite)
    (id : Nat) (sat : Satellite)
    (hlen : 3 < query.utf8ByteSize)
    (hparse : parseUsize query = some id)
    (hfind : entries.find? (fun s => s.id == id) = some sat) :
    search scorer query allowed entries = [sat] := by
  unfold search
  rw [if_neg (by omega), hparse, Option.some_bind, hfind]

theorem claim_c4_witness :
    3 < ("25544" : String).utf8ByteSize ∧
    parseUsize "25544" = some 25544 ∧
    [issSat].find? (fun s => s.id == 25544) = some issSat ∧
    search (fun _ _ => none) "25544" [] [issSat] = [issSat] :=
  ⟨by decide, by decide, rfl,
   claim_c4_exact_id_fast_path (fun _ _ => none) "25544" [] [issSat] 25544 issSat
     (by decide) (by decide) rfl⟩

/-- Claim C6: when the remote fetch or the JSON decoding step of a catalog
refresh fails, `update` returns that error and the previously published
snapshot is left untouched. -/
theorem claim_c6_failed_refresh (old : List Satellite) (e : ReqError) :
    update old (Except.error e) = (Except.error e, old) := rfl

/-- Claim C7 — the code diverges from it. A renewal handshake performed by
`reauth` at instant 200 (client constructed at instant 0) succeeds — the
result is `ok` and one handshake was sent — yet the stored `last_auth`
timestamp is still 0, not 200: `reauth` takes `&self` and never writes
`last_auth`, so the timestamp is only ever set at construction, contradicting
the claim that every successful handshake updates it. -/
theorem claim_c7_last_auth_frozen :
    SpaceTrackClient.reauth ⟨0⟩ 200 false (Except.ok ()) = (Except.ok (), ⟨0⟩, 1) ∧
    (SpaceTrackClient.reauth ⟨0⟩ 200 false (Except.ok ())).2.1.lastAuth ≠ 200 :=
  ⟨rfl, by decide⟩

/-- Claim C8 as stated is false: the guard `query.len() <= 3` measures UTF-8
bytes, not characters. The two-character query "ÿÿ" is four bytes long, so it
passes the guard and reaches the fuzzy path, which can return matches — here
a scorer from the spec's admissible family scores it 1 against the catalog's
single entry, and `search` returns that entry. -/
theorem claim_c8_counterexample :
    ("ÿÿ" : String).length < 4 ∧
    search (fun _ _ => some 1) "ÿÿ" [ObjectType.Payload] [issSat] = [issSat] := by
  refine ⟨by decide, ?_⟩
  have h1 : sortMatches (fuzzyMatches (fun _ _ => some 1) "ÿÿ" [ObjectType.Payload] [issSat]) =
      [{ score := 1, satellite := issSat }] := by
    have h0 : fuzzyMatches (fun _ _ => some 1) "ÿÿ" [ObjectType.Payload] [issSat] =
        [{ score := 1, satellite := issSat }] := rfl
    rw [h0]
    simp [sortMatches, List.mergeSort_singleton]
  calc search (fun _ _ => some 1) "ÿÿ" [ObjectType.Payload] [issSat]
      = ((sortMatches (fuzzyMatches (fun _ _ => some 1) "ÿÿ" [ObjectType.Payload] [issSat])).take 20).map
          (fun r => r.satellite) := rfl
    _ = [issSat] := by rw [h1]; rfl

/-- Claim C8 amended: for every query string of UTF-8 byte length at most 3
— in particular every ASCII query shorter than 4 characters, such as "",
"ab" and "abc" — `search` returns the empty sequence, regardless of the
catalog contents, the allowed-classification list and the scorer. -/
theorem claim_c8_short_query (scorer : String → String → Option Int)
    (query : String) (allowed : List ObjectType) (entries : List Satellite)
    (hlen : query.utf8ByteSize ≤ 3) :
    search scorer query allowed entries = [] := by
  unfold search
  exact if_pos hlen

theorem claim_c8_witness :
    ("abc" : String).utf8ByteSize ≤ 3 ∧
    search (fun _ _ => some 1) "abc" [ObjectType.Payload] [issSat] = [] :=
  ⟨by decide, claim_c8_short_query _ _ _ _ (by decide)⟩

/-- Claim C9: a catalog record whose OBJECT_TYPE wire string is none of
"ROCKET BODY", "PAYLOAD", "DEBRIS", "UNKNOWN" is mapped to classification
`Unknown` with a diagnostic emitted, and the surrounding object is ingested
successfully rather than failing catalog ingestion. -/
theorem claim_c9_unknown_object_type (w : SatelliteWire)
    (h : w.objectTypeStr ∉ (["ROCKET BODY", "PAYLOAD", "DEBRIS", "UNKNOWN"] : List String)) :
    objectTypeDeserialize w.objectTypeStr = Except.ok (ObjectType.Unknown, true) ∧
    satelliteDeserialize w = Except.ok
      { id := w.id, objectType := ObjectType.Unknown, objectName := w.objectName,
        launch := w.launch, decay := w.decay, orbit := w.orbit } := by
  simp only [List.mem_cons, List.not_mem_nil, or_false, not_or] at h
  obtain ⟨h1, h2, h3, h4⟩ := h
  have e : objectTypeDeserialize w.objectTypeStr = Except.ok (ObjectType.Unknown, true) := by
    simp [objectTypeDeserialize, h1, h2, h3, h4]
  exact ⟨e, by simp [satelliteDeserialize, e]⟩

/-! ### Order facts about the two-pass sort of the fuzzy path -/

theorem idDescB_trans (a b c : SearchResult) :
    idDescB a b = true → idDescB b c = true → idDescB a c = true := by
  simp only [idDescB, decide_eq_true_eq]
  omega

theorem idDescB_total (a b : SearchResult) : (idDescB a b || idDescB b a) = true := by
  simp only [idDescB, Bool.or_eq_true, decide_eq_true_eq]
  omega

theorem scoreDescB_trans (a b c : SearchResult) :
    scoreDescB a b = true → scoreDescB b c = true → scoreDescB a c = true := by
  simp only [scoreDescB, decide_eq_true_eq]
  omega

theorem scoreDescB_total (a b : SearchResult) : (scoreDescB a b || scoreDescB b a) = true := by
  simp only [scoreDescB, Bool.or_eq_true, decide_eq_true_eq]
  omega

/-- Two distinct members of a list form a pair sublist in one order or the
other. -/
theorem pair_sublist_of_mem {α : Type} {a b : α} {l : List α}
    (ha : a ∈ l) (hb : b ∈ l) (hne : a ≠ b) :
    [a, b] <+ l ∨ [b, a] <+ l := by
  obtain ⟨s, t, rfl⟩ := List.append_of_mem ha
  rcases List.mem_append.mp hb with hbs | hbt
  · right
    exact List.Sublist.append (List.singleton_sublist.mpr hbs)
      (List.singleton_sublist.mpr (List.mem_cons_self a t))
  · rcases List.mem_cons.mp hbt with rfl | hbt'
    · exact absurd rfl hne
    · left
      exact List.sublist_append_of_sublist_right
        (List.Sublist.cons₂ a (List.singleton_sublist.mpr hbt'))

/-- In a duplicate-free list a pair cannot occur as a sublist in both
orders. -/
theorem not_pair_sublist_swap {α : Type} :
    ∀ {l : List α} {a b : α}, l.Nodup → a ≠ b → [a, b] <+ l → [b, a] <+ l → False := by
  intro l
  induction l with
  | nil => intro a b _ _ hab _; simp at hab
  | cons x t ih =>
    intro a b hnd hne hab hba
    cases hab with
    | cons _ hab2 =>
      cases hba with
      | cons _ hba2 => exact ih (List.nodup_cons.mp hnd).2 hne hab2 hba2
      | cons₂ _ hba2 =>
        exact (List.nodup_cons.mp hnd).1 (hab2.subset (by simp))
    | cons₂ _ hab2 =>
      cases hba with
      | cons _ hba2 =>
        exact (List.nodup_cons.mp hnd).1 (hba2.subset (by simp))
      | cons₂ _ hba2 => exact hne rfl

/-- The two-pass sort — unstable by id descending, then stably by score
descending — orders the matches by score descending with ties broken by id
descending, provided the matches carry pairwise distinct ids. The tie-break
is exactly the stability argument: among equal scores the second pass
preserves the id-descending order established by the first. -/
theorem sortMatches_pairwise (ms : List SearchResult)
    (hnd : (ms.map (fun r => r.satellite.id)).Nodup) :
    (sortMatches ms).Pairwise lexAfter := by
  unfold sortMatches
  have hperm1 : ms.mergeSort idDescB ~ ms := List.mergeSort_perm ms idDescB
  have hnd1 : ((ms.mergeSort idDescB).map (fun r => r.satellite.id)).Nodup :=
    ((hperm1.map _).nodup_iff).mpr hnd
  have hs1 : (ms.mergeSort idDescB).Pairwise (fun a b => idDescB a b = true) :=
    List.sorted_mergeSort idDescB_trans idDescB_total ms
  have hperm2 : (ms.mergeSort idDescB).mergeSort scoreDescB ~ ms.mergeSort idDescB :=
    List.mergeSort_perm _ scoreDescB
  have hnd2 : (((ms.mergeSort idDescB).mergeSort scoreDescB).map
      (fun r => r.satellite.id)).Nodup :=
    ((hperm2.map _).nodup_iff).mpr hnd1
  have hndL2 : ((ms.mergeSort idDescB).mergeSort scoreDescB).Nodup :=
    List.Nodup.of_map _ hnd2
  have hs2 : ((ms.mergeSort idDescB).mergeSort scoreDescB).Pairwise
      (fun a b => scoreDescB a b = true) :=
    List.sorted_mergeSort scoreDescB_trans scoreDescB_total _
  have hidpw : ((ms.mergeSort idDescB).mergeSort scoreDescB).Pairwise
      (fun a b => a.satellite.id ≠ b.satellite.id) :=
    List.pairwise_map.mp hnd2
  rw [List.pairwise_iff_forall_sublist]
  intro a b hab
  have hsc : b.score ≤ a.score := by
    have := List.pairwise_iff_forall_sublist.mp hs2 hab
    simpa [scoreDescB] using this
  refine ⟨hsc, ?_⟩
  intro heq
  by_contra hcon
  push_neg at hcon
  have hneid : a.satellite.id ≠ b.satellite.id :=
    List.pairwise_iff_forall_sublist.mp hidpw hab
  have hne : a ≠ b := fun h => hneid (by rw [h])
  have haL1 : a ∈ ms.mergeSort idDescB :=
    hperm2.subset (hab.subset (by simp))
  have hbL1 : b ∈ ms.mergeSort idDescB :=
    hperm2.subset (hab.subset (by simp : b ∈ [a, b]))
  rcases pair_sublist_of_mem haL1 hbL1 hne with h1 | h1
  · have h3 : b.satellite.id ≤ a.satellite.id := by
      have := List.pairwise_iff_forall_sublist.mp hs1 h1
      simpa [idDescB] using this
    omega
  · have h2 : [b, a] <+ (ms.mergeSort idDescB).mergeSort scoreDescB :=
      List.pair_sublist_mergeSort scoreDescB_trans scoreDescB_total
        (by simp [scoreDescB, heq]) h1
    exact not_pair_sublist_swap hndL2 hne hab h2

theorem sortMatches_perm (ms : List SearchResult) : sortMatches ms ~ ms :=
  (List.mergeSort_perm _ scoreDescB).trans (List.mergeSort_perm ms idDescB)

/-- What membership in the fuzzy match list means: the underlying satellite
is a catalog entry with an allowed classification, and its recorded score is
the scorer's (non-negative) score for it. -/
theorem mem_fuzzyMatches {scorer : String → String → Option Int} {query : String}
    {allowed : List ObjectType} {entries : List Satellite} {r : SearchResult}
    (h : r ∈ fuzzyMatches scorer query allowed entries) :
    r.satellite ∈ entries ∧ r.satellite.objectType ∈ allowed ∧
    scorer query r.satellite.objectName = some r.score ∧ 0 ≤ r.score := by
  unfold fuzzyMatches at h
  obtain ⟨s, hs, hf⟩ := List.mem_filterMap.mp h
  obtain ⟨hse, hcont⟩ := List.mem_filter.mp hs
  cases hsco : scorer query s.objectName with
  | none => rw [hsco] at hf; cases hf
  | some sc =>
    rw [hsco] at hf
    by_cases hneg : sc < 0
    · simp [hneg] at hf
    · simp only [hneg, if_false, Option.some.injEq] at hf
      obtain rfl := hf
      refine ⟨hse, by simpa [List.contains, List.elem_iff] using hcont, hsco, ?_⟩
      show (0 : Int) ≤ sc
      omega

/-- The ids of the fuzzy matches form a sublist of the ids of the filtered
entries (filterMap keeps each match's satellite equal to its entry). -/
theorem map_filterMap_sublist {α β γ : Type} (f : α → Option β) (g : β → γ) (h : α → γ)
    (hfg : ∀ a b, f a = some b → g b = h a) (l : List α) :
    ((l.filterMap f).map g) <+ (l.map h) := by
  induction l with
  | nil => simp
  | cons a t ih =>
    cases hfa : f a with
    | none =>
      simp only [List.filterMap_cons, hfa, List.map_cons]
      exact List.Sublist.cons _ ih
    | some b =>
      simp only [List.filterMap_cons, hfa, List.map_cons]
      rw [hfg a b hfa]
      exact List.Sublist.cons₂ _ ih

/-- Unique catalog ids stay unique through the filter/score stage. -/
theorem fuzzyMatches_ids_nodup (scorer : String → String → Option Int) (query : String)
    (allowed : List ObjectType) {entries : List Satellite}
    (hnd : (entries.map (fun s => s.id)).Nodup) :
    ((fuzzyMatches scorer query allowed entries).map (fun r => r.satellite.id)).Nodup := by
  have hsub : ((fuzzyMatches scorer query allowed entries).map (fun r => r.satellite.id)) <+
      ((entries.filter (fun s => allowed.contains s.objectType)).map (fun s => s.id)) := by
    unfold fuzzyMatches
    apply map_filterMap_sublist
    intro a b hab
    cases hsco : scorer query a.objectName with
    | none => rw [hsco] at hab; cases hab
    | some sc =>
      rw [hsco] at hab
      by_cases hneg : sc < 0
      · simp [hneg] at hab
      · simp only [hneg, if_false, Option.some.injEq] at hab
        rw [← hab]
  have hsub2 : ((entries.filter (fun s => allowed.contains s.objectType)).map
      (fun s => s.id)) <+ (entries.map (fun s => s.id)) :=
    (List.filter_sublist entries).map _
  exact (hsub.trans hsub2).nodup hnd

/-- Claim C5: on the fuzzy path (query over 3 bytes, no exact-ID hit), with
the snapshot's ids unique, `search` returns at most 20 results; every result
has an allowed classification and a non-negative fuzzy score; and the results
are ordered by score descending with ties broken by identifier descending
(among equal scores the larger identifier sorts first). -/
theorem claim_c5_fuzzy_ranking (scorer : String → String → Option Int) (query : String)
    (allowed : List ObjectType) (entries : List Satellite)
    (hlen : 3 < query.utf8ByteSize)
    (hfast : (parseUsize query).bind (fun id => entries.find? (fun s => s.id == id)) = none)
    (hnd : (entries.map (fun s => s.id)).Nodup) :
    (search scorer query allowed entries).length ≤ 20 ∧
    (∀ s ∈ search scorer query allowed entries,
      s.objectType ∈ allowed ∧ ∃ sc, scorer query s.objectName = some sc ∧ 0 ≤ sc) ∧
    (search scorer query allowed entries).Pairwise (fun s t =>
      ∀ ss st, scorer query s.objectName = some ss → scorer query t.objectName = some st →
        st ≤ ss ∧ (ss = st → t.id < s.id)) := by
  have hsearch : search scorer query allowed entries =
      ((sortMatches (fuzzyMatches scorer query allowed entries)).take 20).map
        (fun r => r.satellite) := by
    unfold search
    rw [if_neg (by omega), hfast]
  have hpw : (sortMatches (fuzzyMatches scorer query allowed entries)).Pairwise lexAfter :=
    sortMatches_pairwise _ (fuzzyMatches_ids_nodup scorer query allowed hnd)
  have hmemS : ∀ r ∈ (sortMatches (fuzzyMatches scorer query allowed entries)).take 20,
      r ∈ fuzzyMatches scorer query allowed entries := by
    intro r hr
    exact (sortMatches_perm _).subset ((List.take_sublist _ _).subset hr)
  refine ⟨?_, ?_, ?_⟩
  · rw [hsearch, List.length_map]
    exact List.length_take_le 20 _
  · rw [hsearch]
    intro s hs
    obtain ⟨r, hr, rfl⟩ := List.mem_map.mp hs
    obtain ⟨-, hall, hsco, hpos⟩ := mem_fuzzyMatches (hmemS r hr)
    exact ⟨hall, r.score, hsco, hpos⟩
  · rw [hsearch, List.pairwise_map]
    have hpw20 : ((sortMatches (fuzzyMatches scorer query allowed entries)).take 20).Pairwise
        lexAfter :=
      List.Pairwise.sublist (List.take_sublist _ _) hpw
    rw [List.pairwise_iff_forall_sublist]
    intro a b hab
    obtain ⟨-, -, hQa, -⟩ := mem_fuzzyMatches (hmemS a (hab.subset (by simp)))
    obtain ⟨-, -, hQb, -⟩ := mem_fuzzyMatches (hmemS b (hab.subset (by simp : b ∈ [a, b])))
    have hlex : lexAfter a b := List.pairwise_iff_forall_sublist.mp hpw20 hab
    intro ss st hss hst
    rw [hQa] at hss
    rw [hQb] at hst
    obtain rfl : a.score = ss := Option.some.inj hss
    obtain rfl : b.score = st := Option.some.inj hst
    exact ⟨hlex.1, hlex.2⟩

theorem claim_c5_witness :
    3 < ("abcd" : String).utf8ByteSize ∧
    ((search (fun _ _ => some 1) "abcd" [ObjectType.Payload] [issSat]).length ≤ 20 ∧
    (∀ s ∈ search (fun _ _ => some 1) "abcd" [ObjectType.Payload] [issSat],
      s.objectType ∈ [ObjectType.Payload] ∧
      ∃ sc, (fun _ _ => some 1 : String → String → Option Int) "abcd" s.objectName = some sc ∧
        0 ≤ sc) ∧
    (search (fun _ _ => some 1) "abcd" [ObjectType.Payload] [issSat]).Pairwise (fun s t =>
      ∀ ss st, (fun _ _ => some 1 : String → String → Option Int) "abcd" s.objectName = some ss →
        (fun _ _ => some 1 : String → String → Option Int) "abcd" t.objectName = some st →
        st ≤ ss ∧ (ss = st → t.id < s.id))) :=
  ⟨by decide,
   claim_c5_fuzzy_ranking (fun _ _ => some 1) "abcd" [ObjectType.Payload] [issSat]
     (by decide) rfl (by decide)⟩

/-- List lookup by `find?` is insensitive to permutation when at most one element can
satisfy the predicate. -/
theorem find_eq_of_perm {α : Type} (p : α → Bool) {l1 l2 : List α} (hperm : l1 ~ l2)
    (huniq : ∀ x ∈ l1, ∀ y ∈ l1, p x = true → p y = true → x = y) :
    l1.find? p = l2.find? p := by
  cases h1 : l1.find? p with
  | none =>
    cases h2 : l2.find? p with
    | none => rfl
    | some y =>
      have hy : y ∈ l1 := hperm.mem_iff.mpr (List.mem_of_find?_eq_some h2)
      exact absurd (List.find?_some h2) (List.find?_eq_none.mp h1 y hy)
  | some x =>
    cases h2 : l2.find? p with
    | none =>
      have hx : x ∈ l2 := hperm.mem_iff.mp (List.mem_of_find?_eq_some h1)
      exact absurd (List.find?_some h1) (List.find?_eq_none.mp h2 x hx)
    | some y =>
      have hx : x ∈ l1 := List.mem_of_find?_eq_some h1
      have hy : y ∈ l1 := hperm.mem_iff.mpr (List.mem_of_find?_eq_some h2)
      rw [huniq x hx y hy (List.find?_some h1) (List.find?_some h2)]

/-- On distinct-id lists `lexAfter` is vacuously antisymmetric: it can never
hold in both directions. -/
theorem lexAfter_antisymm (a b : SearchResult) :
    lexAfter a b → lexAfter b a → a = b := by
  intro h1 h2
  obtain ⟨hba, htie1⟩ := h1
  obtain ⟨hab, htie2⟩ := h2
  have hs : a.score = b.score := le_antisymm hab hba
  have := htie1 hs
  have := htie2 hs.symm
  omega

/-- Claim C10: for a fixed snapshot (same key-to-satellite map, any two
iteration orders) `search` is deterministic: permuting the entry list of a
snapshot with unique ids does not change the result sequence, because the
(score descending, id descending) key is a total order on distinct ids, so
the sorted list is unique despite the unstable first sorting pass. Two calls
with identical arguments are then literally equal terms, `search` being a
function of its inputs. -/
theorem claim_c10_deterministic (scorer : String → String → Option Int) (query : String)
    (allowed : List ObjectType) (e1 e2 : List Satellite)
    (hperm : e1 ~ e2) (hnd : (e1.map (fun s => s.id)).Nodup) :
    search scorer query allowed e1 = search scorer query allowed e2 := by
  unfold search
  by_cases hlen : query.utf8ByteSize ≤ 3
  · rw [if_pos hlen, if_pos hlen]
  · rw [if_neg hlen, if_neg hlen]
    have hfind : ∀ id : Nat,
        e1.find? (fun s => s.id == id) = e2.find? (fun s => s.id == id) := by
      intro id
      apply find_eq_of_perm _ hperm
      intro x hx y hy hpx hpy
      have hx2 : x.id = id := by simpa using hpx
      have hy2 : y.id = id := by simpa using hpy
      exact List.inj_on_of_nodup_map hnd hx hy (by rw [hx2, hy2])
    have hscrut : (parseUsize query).bind (fun id => e1.find? (fun s => s.id == id)) =
        (parseUsize query).bind (fun id => e2.find? (fun s => s.id == id)) := by
      cases parseUsize query with
      | none => rfl
      | some id => simpa using hfind id
    rw [hscrut]
    cases h2 : (parseUsize query).bind (fun id => e2.find? (fun s => s.id == id)) with
    | some sat => rfl
    | none =>
      have hmp : fuzzyMatches scorer query allowed e1 ~ fuzzyMatches scorer query allowed e2 :=
        List.Perm.filterMap _ (List.Perm.filter _ hperm)
      have hnd2 : (e2.map (fun s => s.id)).Nodup := ((hperm.map _).nodup_iff).mp hnd
      have hsp : sortMatches (fuzzyMatches scorer query allowed e1) ~
          sortMatches (fuzzyMatches scorer query allowed e2) :=
        ((sortMatches_perm _).trans hmp).trans (sortMatches_perm _).symm
      have hM : sortMatches (fuzzyMatches scorer query allowed e1) =
          sortMatches (fuzzyMatches scorer query allowed e2) :=
        List.Perm.eq_of_sorted (fun a b _ _ => lexAfter_antisymm a b)
          (sortMatches_pairwise _ (fuzzyMatches_ids_nodup scorer query allowed hnd))
          (sortMatches_pairwise _ (fuzzyMatches_ids_nodup scorer query allowed hnd2)) hsp
      rw [hM]

theorem claim_c10_witness :
    (([issSat, sat123].map (fun s => s.id)).Nodup) ∧
    search (fun _ _ => some 1) "zarya" [ObjectType.Payload] [issSat, sat123] =
      search (fun _ _ => some 1) "zarya" [ObjectType.Payload] [sat123, issSat] :=
  ⟨by decide,
   claim_c10_deterministic (fun _ _ => some 1) "zarya" [ObjectType.Payload]
     [issSat, sat123] [sat123, issSat] (List.Perm.swap sat123 issSat []) (by decide)⟩

theorem claim_c9_witness :
    ("UNKNOWN_FUTURE_TYPE" ∉ (["ROCKET BODY", "PAYLOAD", "DEBRIS", "UNKNOWN"] : List String)) ∧
    objectTypeDeserialize futureWire.objectTypeStr = Except.ok (ObjectType.Unknown, true) ∧
    satelliteDeserialize futureWire = Except.ok
      { id := futureWire.id, objectType := ObjectType.Unknown,
        objectName := futureWire.objectName, launch := futureWire.launch,
        decay := futureWire.decay, orbit := futureWire.orbit } :=
  ⟨by decide,
   (claim_c9_unknown_object_type futureWire (by decide)).1,
   (claim_c9_unknown_object_type futureWire (by decide)).2⟩

end Gpcache
